import Mathlib

/-
  Verification of the calendar-duration / date-iterator component of the
  kosta/chrono repository (src/date_ops/*, src/date_iterator.rs,
  src/date_iterator/mod.rs).

  The repository code is translated into Lean definitions below.  Rust
  machine integers are modelled as Lean Int/Nat, with explicit reduction
  modulo 2^32 or 2^64 at the places where the Rust code can overflow or
  where a cast truncates.  Fallible Rust operations returning Option are
  modelled as Lean Option.

  The external date collaborator (the chrono date value itself: Datelike
  accessors, with_year / with_month / with_day, NaiveDate arithmetic) is
  not part of the seven source files; those pieces are modelled from the
  spec, each marked with a doc comment starting with: Modelled from the spec.
-/

/-! ## Machine-integer helpers -/

def i32Min : Int := -(2 ^ 31)

def i32Max : Int := 2 ^ 31 - 1

def i64Min : Int := -(2 ^ 63)

def i64Max : Int := 2 ^ 63 - 1

/-- Rust i32 checked_mul: the product, or none when it leaves the i32 range. -/
def checkedMulI32 (a b : Int) : Option Int :=
  if i32Min ≤ a * b ∧ a * b ≤ i32Max then some (a * b) else none

/-- Rust i32 checked_add: the sum, or none when it leaves the i32 range. -/
def checkedAddI32 (a b : Int) : Option Int :=
  if i32Min ≤ a + b ∧ a + b ≤ i32Max then some (a + b) else none

/-- Rust i64 checked_add: the sum, or none when it leaves the i64 range. -/
def checkedAddI64 (a b : Int) : Option Int :=
  if i64Min ≤ a + b ∧ a + b ≤ i64Max then some (a + b) else none

/-- The value of a Rust "as u32" cast of a 64-bit signed value: reduce
modulo 2^32 and read the bits as an unsigned number. -/
def u32OfI64 (x : Int) : Nat := (x % (2 ^ 32 : Int)).toNat

/-- The value of a Rust "as i32" cast of a 64-bit signed value: reduce
modulo 2^32 into the signed i32 range. -/
def i32OfI64 (x : Int) : Int := (x + 2 ^ 31) % 2 ^ 32 - 2 ^ 31

/-- Rust wrapping 64-bit signed multiplication (release-profile semantics of
an unchecked i64 product). -/
def wrapI64 (x : Int) : Int := (x + 2 ^ 63) % 2 ^ 64 - 2 ^ 63

/-! ## The external date collaborator, modelled from the spec -/

/-- Modelled from the spec: the representable year range of the external
date collaborator; apply_to must fail when the resulting year is out of
this range (the chrono NaiveDate year range). -/
def MIN_YEAR : Int := -262144

/-- Modelled from the spec: upper end of the representable year range. -/
def MAX_YEAR : Int := 262143

/-- Modelled from the spec: proleptic-Gregorian leap-year rule used by the
external calendar collaborator. -/
def isLeapYear (y : Int) : Bool := y % 4 == 0 && (y % 100 != 0 || y % 400 == 0)

/-- Modelled from the spec: number of days of one-based month m in year y
in the proleptic Gregorian calendar. -/
def monthLength (y : Int) (m : Nat) : Nat :=
  if m = 2 then (if isLeapYear y then 29 else 28)
  else if m = 4 ∨ m = 6 ∨ m = 9 ∨ m = 11 then 30
  else 31

/-- Modelled from the spec: validity of a year/month/day triple for the
external collaborator (month 1-12, day 1 to the month length, year inside
the representable range). -/
def isValidDate (y : Int) (m d : Nat) : Bool :=
  decide (MIN_YEAR ≤ y) && decide (y ≤ MAX_YEAR) &&
  decide (1 ≤ m) && decide (m ≤ 12) &&
  decide (1 ≤ d) && decide (d ≤ monthLength y m)

/-- Modelled from the spec: the external NaiveDate value, a bare
year/month/day triple (month one-based). -/
structure NaiveDate where
  year : Int
  month : Nat
  day : Nat
deriving DecidableEq, Repr

/-- Modelled from the spec: NaiveDate::from_ymd_opt, some exactly on valid
triples. -/
def fromYmdOpt (y : Int) (m d : Nat) : Option NaiveDate :=
  if isValidDate y m d then some ⟨y, m, d⟩ else none

/-- Modelled from the spec: NaiveDate::from_ymd.  The source panics on an
invalid triple; every use reachable from the claims passes a valid triple,
so the model constructs the triple unconditionally. -/
def fromYmd (y : Int) (m d : Nat) : NaiveDate := ⟨y, m, d⟩

/-- Modelled from the spec: NaiveDate::pred, the previous calendar day. -/
def NaiveDate.pred (d : NaiveDate) : NaiveDate :=
  if 1 < d.day then ⟨d.year, d.month, d.day - 1⟩
  else if 1 < d.month then ⟨d.year, d.month - 1, monthLength d.year (d.month - 1)⟩
  else ⟨d.year - 1, 12, 31⟩

/-- Modelled from the spec: days since 1970-01-01 of a proleptic-Gregorian
civil date (the standard days-from-civil computation, exact for all years). -/
def daysFromCivil (y : Int) (m d : Nat) : Int :=
  let y2 : Int := if m ≤ 2 then y - 1 else y
  let era : Int := y2.fdiv 400
  let yoe : Int := y2 - era * 400
  let mp : Int := (m : Int) + (if 2 < m then -3 else 9)
  let doy : Int := (153 * mp + 2).fdiv 5 + (d : Int) - 1
  let doe : Int := yoe * 365 + yoe.fdiv 4 - yoe.fdiv 100 + doy
  era * 146097 + doe - 719468

/-- Modelled from the spec: the inverse of daysFromCivil (the standard
civil-from-days computation). -/
def civilFromDays (z0 : Int) : NaiveDate :=
  let z : Int := z0 + 719468
  let era : Int := z.fdiv 146097
  let doe : Int := z - era * 146097
  let yoe : Int := (doe - doe.fdiv 1460 + doe.fdiv 36524 - doe.fdiv 146096).fdiv 365
  let y : Int := yoe + era * 400
  let doy : Int := doe - (365 * yoe + yoe.fdiv 4 - yoe.fdiv 100)
  let mp : Int := (5 * doy + 2).fdiv 153
  let d : Int := doy - (153 * mp + 2).fdiv 5 + 1
  let m : Int := if mp < 10 then mp + 3 else mp - 9
  ⟨if m ≤ 2 then y + 1 else y, m.toNat, d.toNat⟩

/-- Modelled from the spec: NaiveDate::checked_add_signed with a
whole-days delta — signed-day addition on the physical day line, failing
exactly when the resulting year leaves the representable range. -/
def checkedAddDays (d : NaiveDate) (days : Int) : Option NaiveDate :=
  let res := civilFromDays (daysFromCivil d.year d.month d.day + days)
  if MIN_YEAR ≤ res.year ∧ res.year ≤ MAX_YEAR then some res else none

/-- Modelled from the spec: the external date-time value, exposing year,
one-based month, day-of-month and a time of day.  The source field names
follow the Datelike accessors. -/
structure DateTime where
  year : Int
  month : Nat
  day : Nat
  hour : Nat
  minute : Nat
  second : Nat
  nano : Nat
deriving DecidableEq, Repr

/-- Datelike::month0, the zero-based month accessor used by the source. -/
def DateTime.month0 (dt : DateTime) : Nat := dt.month - 1

/-- Modelled from the spec: fallible with-year-set-to-V; fails when the
new year makes the year/month/day triple invalid. -/
def DateTime.with_year (dt : DateTime) (y : Int) : Option DateTime :=
  if isValidDate y dt.month dt.day then some { dt with year := y } else none

/-- Modelled from the spec: fallible with-month-set-to-V. -/
def DateTime.with_month (dt : DateTime) (m : Nat) : Option DateTime :=
  if isValidDate dt.year m dt.day then some { dt with month := m } else none

/-- Modelled from the spec: fallible with-day-set-to-V. -/
def DateTime.with_day (dt : DateTime) (d : Nat) : Option DateTime :=
  if isValidDate dt.year dt.month d then some { dt with day := d } else none

/-- Modelled from the spec: seconds since the epoch, used for the ordering
comparison and for the native time-delta addition. -/
def DateTime.toSecs (dt : DateTime) : Int :=
  daysFromCivil dt.year dt.month dt.day * 86400 +
    (dt.hour : Int) * 3600 + (dt.minute : Int) * 60 + (dt.second : Int)

/-- Modelled from the spec: the ordering comparison required from the
date collaborator (chronological order, the Rust lt of PartialOrd). -/
def DateTime.lt (a b : DateTime) : Bool :=
  decide (a.toSecs * 1000000000 + (a.nano : Int) < b.toSecs * 1000000000 + (b.nano : Int))

/-! ## Calendar helpers of src/date_iterator/mod.rs -/

/-- last_day_of_month of src/date_iterator/mod.rs: first day of the next
month (falling back to January 1 of the next year when month + 1 is not a
valid month number), stepped back one day.  The u32 increment of month is
reduced modulo 2^32 as in the machine. -/
def last_day_of_month (year : Int) (month : Nat) : Nat :=
  (((fromYmdOpt year ((month + 1) % 2 ^ 32) 1).getD (fromYmd (year + 1) 1 1)).pred).day

/-- last_day_of_month_0 of src/date_iterator/mod.rs (zero-based month). -/
def last_day_of_month_0 (year : Int) (month_0 : Nat) : Nat :=
  last_day_of_month year ((month_0 + 1) % 2 ^ 32)

/-- is_leap_year of src/date_iterator/mod.rs. -/
def is_leap_year (year : Int) : Bool := (fromYmdOpt year 2 29).isSome

/-! ## Duration kinds (src/date_ops) -/

/-- InvalidDateHandling of src/date_ops/month_duration.rs. -/
inductive InvalidDateHandling where
  | Reject
  | Previous
  | Next
deriving DecidableEq, Repr

/-- DayDuration of src/date_ops/day_duration.rs (field n is the i32
magnitude of the tuple struct). -/
structure DayDuration where
  n : Int
deriving DecidableEq, Repr

/-- MonthDuration of src/date_ops/month_duration.rs (field n is the i32
magnitude, handling the attached policy). -/
structure MonthDuration where
  n : Int
  handling : InvalidDateHandling
deriving DecidableEq, Repr

/-- YearDuration of src/date_ops/year_duration.rs. -/
structure YearDuration where
  n : Int
deriving DecidableEq, Repr

/-- Modelled from the spec: the external fixed time-delta type (chrono
Duration, named OldDuration by the source), reduced to its magnitude in
seconds held in a 64-bit machine integer. -/
structure OldDuration where
  secs : Int
deriving DecidableEq, Repr

/-- Modelled from the spec: the external unchecked multiplication of the
fixed time-delta type; the product of the magnitude, reduced to the
machine range with no overflow detection. -/
def OldDuration.mul (d : OldDuration) (n : Int) : OldDuration :=
  ⟨wrapI64 (d.secs * n)⟩

/-- Modelled from the spec: the native fallible add-this-time-delta
operation of the date collaborator; shifts the date-time on the physical
seconds line and fails exactly when the resulting year leaves the
representable range. -/
def OldDuration.checked_add (d : OldDuration) (dt : DateTime) : Option DateTime :=
  let t : Int := dt.toSecs + d.secs
  let rem : Nat := (t % (86400 : Int)).toNat
  let nd := civilFromDays (t.fdiv 86400)
  if MIN_YEAR ≤ nd.year ∧ nd.year ≤ MAX_YEAR then
    some ⟨nd.year, nd.month, nd.day, rem / 3600, rem % 3600 / 60, rem % 60, dt.nano⟩
  else none

/-- The shared tail of DayDuration::add_to and MonthDuration::add_to: the
with_year / with_day(1) / with_month / with_day chain both sources end
with (the month argument is the raw u32 the source passes). -/
def applyYmd (dt : DateTime) (y : Int) (m d : Nat) : Option DateTime :=
  (((dt.with_year y).bind (fun dt2 => dt2.with_day 1)).bind
      (fun dt2 => dt2.with_month m)).bind
    (fun dt2 => dt2.with_day d)

/-- DayDuration::times of src/date_ops/day_duration.rs. -/
def DayDuration.times (self : DayDuration) (n : Int) : Option DayDuration :=
  (checkedMulI32 self.n n).map DayDuration.mk

/-- DayDuration::add_to of src/date_ops/day_duration.rs: convert to a
NaiveDate, add the signed number of days, write the resulting fields back
through the with_year / with_day / with_month / with_day chain. -/
def DayDuration.add_to (self : DayDuration) (dt : DateTime) : Option DateTime :=
  match checkedAddDays (fromYmd dt.year dt.month dt.day) self.n with
  | none => none
  | some naive => applyYmd dt naive.year naive.month naive.day

/-- YearDuration::times of src/date_ops/year_duration.rs. -/
def YearDuration.times (self : YearDuration) (n : Int) : Option YearDuration :=
  (checkedMulI32 self.n n).map YearDuration.mk

/-- YearDuration::add_to of src/date_ops/year_duration.rs. -/
def YearDuration.add_to (self : YearDuration) (dt : DateTime) : Option DateTime :=
  match checkedAddI32 dt.year self.n with
  | none => none
  | some y => dt.with_year y

/-- MonthDuration::times of src/date_ops/month_duration.rs. -/
def MonthDuration.times (self : MonthDuration) (n : Int) : Option MonthDuration :=
  (checkedMulI32 self.n n).map (fun m => MonthDuration.mk m self.handling)

/-- MonthDuration::add_to of src/date_ops/month_duration.rs, translated
statement by statement.  The i64 division and remainder are the Rust
truncating tdiv and tmod; the cast of the remainder to u32 and of the
carry to i32 are the machine casts; the u32 increments of the month are
reduced modulo 2^32. -/
def MonthDuration.add_to (self : MonthDuration) (dt : DateTime) : Option DateTime :=
  match checkedAddI64 (dt.month0 : Int) self.n with
  | none => none
  | some nm0 =>
    let additional_years : Int := nm0.tdiv 12
    let next_month_0 : Nat := u32OfI64 (nm0.tmod 12)
    if i32Max ≤ additional_years then none
    else
      let additional_years : Int := i32OfI64 additional_years
      match checkedAddI32 dt.year additional_years with
      | none => none
      | some next_year =>
        let last_day := last_day_of_month_0 next_year next_month_0
        let next_day := dt.day
        if last_day < next_day then
          match self.handling with
          | .Reject => none
          | .Previous => applyYmd dt next_year ((next_month_0 + 1) % 2 ^ 32) last_day
          | .Next =>
            let m2 : Nat := (next_month_0 + 1) % 2 ^ 32 % 12
            if m2 = 0 then
              match checkedAddI32 next_year 1 with
              | none => none
              | some y2 => applyYmd dt y2 ((m2 + 1) % 2 ^ 32) 1
            else applyYmd dt next_year ((m2 + 1) % 2 ^ 32) 1
        else applyYmd dt next_year ((next_month_0 + 1) % 2 ^ 32) next_day

/-! ## The DateOp capability (src/date_ops/mod.rs, src/date_ops/and_then.rs)

The source expresses the capability as a trait implemented by the four
duration kinds and by the AndThen combinator; the closed set of
implementors is modelled as an inductive with one recursive times and
add_to dispatched on the variant. -/

inductive DateOp where
  | day (d : DayDuration)
  | month (d : MonthDuration)
  | year (d : YearDuration)
  | old (d : OldDuration)
  | and_then (a b : DateOp)
deriving DecidableEq, Repr

/-- DateOp::times per implementor: day, month and year use the i32
checked multiplication; the OldDuration impl of src/date_ops/mod.rs is
Some of the unchecked product; AndThen::times scales both components and
fails if either fails. -/
def DateOp.times : DateOp → Int → Option DateOp
  | .day d, n => (d.times n).map .day
  | .month d, n => (d.times n).map .month
  | .year d, n => (d.times n).map .year
  | .old d, n => some (.old (d.mul n))
  | .and_then a b, n =>
    match a.times n, b.times n with
    | some a2, some b2 => some (.and_then a2 b2)
    | _, _ => none

/-- DateOp::add_to per implementor; AndThen::add_to applies the first
component, then the second to its result, short-circuiting on failure. -/
def DateOp.add_to : DateOp → DateTime → Option DateTime
  | .day d, dt => d.add_to dt
  | .month d, dt => d.add_to dt
  | .year d, dt => d.add_to dt
  | .old d, dt => d.checked_add dt
  | .and_then a b, dt => (a.add_to dt).bind b.add_to

/-! ## Date iterators (src/date_iterator.rs) -/

/-- OpenEndedDateIterator (the source field from is a Lean keyword and is
named start here). -/
structure OpenEndedDateIterator where
  start : DateTime
  duration : DateOp
  iterations : Int
deriving DecidableEq, Repr

/-- date_iterator_from of src/date_iterator.rs. -/
def date_iterator_from (dt : DateTime) (duration : DateOp) : OpenEndedDateIterator :=
  ⟨dt, duration, 0⟩

/-- OpenEndedDateIterator::current of src/date_iterator.rs. -/
def OpenEndedDateIterator.current (it : OpenEndedDateIterator) : Option DateTime :=
  (it.duration.times it.iterations).bind (fun d => d.add_to it.start)

/-- The Iterator::next of OpenEndedDateIterator: read current, then
increment the step counter unconditionally.  The counter is an i32 in the
source; no claim involves the region near 2^31 calls, so it is kept as an
Int. -/
def OpenEndedDateIterator.next (it : OpenEndedDateIterator) :
    Option DateTime × OpenEndedDateIterator :=
  (it.current, { it with iterations := it.iterations + 1 })

/-- OpenEndedPairwiseDateIterator of src/date_iterator.rs. -/
structure OpenEndedPairwiseDateIterator where
  iter : OpenEndedDateIterator
deriving DecidableEq, Repr

/-- OpenEndedDateIterator::pairwise. -/
def OpenEndedDateIterator.pairwise (it : OpenEndedDateIterator) :
    OpenEndedPairwiseDateIterator := ⟨it⟩

/-- The Iterator::next of OpenEndedPairwiseDateIterator: advance the inner
iterator once (its counter moves in every case), and pair its value with
the advanced iterator's current value. -/
def OpenEndedPairwiseDateIterator.next (it : OpenEndedPairwiseDateIterator) :
    Option (DateTime × DateTime) × OpenEndedPairwiseDateIterator :=
  let p := it.iter.next
  (p.1.bind (fun a => p.2.current.map (fun b => (a, b))), ⟨p.2⟩)

/-- ClosedDateIterator of src/date_iterator.rs, at the inner-iterator type
the source constructs it with (the open-ended iterator).  The source field
to is a Lean keyword and is named bound here. -/
structure ClosedDateIterator where
  iter : OpenEndedDateIterator
  bound : DateTime
deriving DecidableEq, Repr

/-- date_iterator_to of src/date_iterator.rs. -/
def date_iterator_to (iter : OpenEndedDateIterator) (b : DateTime) : ClosedDateIterator :=
  ⟨iter, b⟩

/-- date_iterator_from_to of src/date_iterator.rs. -/
def date_iterator_from_to (dt : DateTime) (duration : DateOp) (b : DateTime) :
    ClosedDateIterator :=
  date_iterator_to (date_iterator_from dt duration) b

/-- The Iterator::next of ClosedDateIterator: advance the inner iterator,
pass its value through only while strictly below the bound. -/
def ClosedDateIterator.next (c : ClosedDateIterator) :
    Option DateTime × ClosedDateIterator :=
  let p := c.iter.next
  (p.1.bind (fun dt => if dt.lt c.bound then some dt else none), ⟨p.2, c.bound⟩)

/-- ClosedPairwiseDateIterator of src/date_iterator.rs. -/
structure ClosedPairwiseDateIterator where
  iter : OpenEndedPairwiseDateIterator
  bound : DateTime
deriving DecidableEq, Repr

/-- ClosedDateIterator::pairwise. -/
def ClosedDateIterator.pairwise (c : ClosedDateIterator) : ClosedPairwiseDateIterator :=
  ⟨c.iter.pairwise, c.bound⟩

/-- The Iterator::next of ClosedPairwiseDateIterator: advance the inner
pairwise iterator, pass the pair through only while its first element is
strictly below the bound. -/
def ClosedPairwiseDateIterator.next (c : ClosedPairwiseDateIterator) :
    Option (DateTime × DateTime) × ClosedPairwiseDateIterator :=
  let p := c.iter.next
  (p.1.bind (fun dts => if dts.1.lt c.bound then some dts else none), ⟨p.2, c.bound⟩)

/-! ## Generic finite iteration of a stateful next -/

/-- The iterator state after k calls to next. -/
def nthState {σ α : Type} (step : σ → Option α × σ) (s : σ) : Nat → σ
  | 0 => s
  | k + 1 => (step (nthState step s k)).2

/-- The value returned by the k-th call to next (zero-based: nthOut 0 is
the first call's value). -/
def nthOut {σ α : Type} (step : σ → Option α × σ) (s : σ) (k : Nat) : Option α :=
  (step (nthState step s k)).1

/-- The value of the k-th iteration step as re-derived from the origin:
the scaled duration applied to the origin date. -/
def stepValue (origin : DateTime) (op : DateOp) (k : Int) : Option DateTime :=
  (op.times k).bind (fun d => d.add_to origin)

/-! ## Helper lemmas on the iterators -/

theorem nthState_open (it : OpenEndedDateIterator) (k : Nat) :
    nthState OpenEndedDateIterator.next it k =
      ⟨it.start, it.duration, it.iterations + k⟩ := by
  induction k with
  | zero => simp [nthState]
  | succ k ih =>
    rw [nthState, ih]
    simp [OpenEndedDateIterator.next]
    ring

theorem nthOut_open (it : OpenEndedDateIterator) (k : Nat) :
    nthOut OpenEndedDateIterator.next it k =
      stepValue it.start it.duration (it.iterations + k) := by
  rw [nthOut, nthState_open]
  rfl

theorem nthState_pair (it : OpenEndedDateIterator) (k : Nat) :
    nthState OpenEndedPairwiseDateIterator.next ⟨it⟩ k =
      ⟨nthState OpenEndedDateIterator.next it k⟩ := by
  induction k with
  | zero => rfl
  | succ k ih => rw [nthState, ih]; rfl

theorem nthState_closed (it : OpenEndedDateIterator) (b : DateTime) (k : Nat) :
    nthState ClosedDateIterator.next ⟨it, b⟩ k =
      ⟨nthState OpenEndedDateIterator.next it k, b⟩ := by
  induction k with
  | zero => rfl
  | succ k ih => rw [nthState, ih]; rfl

theorem nthOut_closed (it : OpenEndedDateIterator) (b : DateTime) (k : Nat) :
    nthOut ClosedDateIterator.next ⟨it, b⟩ k =
      (nthOut OpenEndedDateIterator.next it k).bind
        (fun v => if v.lt b then some v else none) := by
  rw [nthOut, nthState_closed]
  rfl

theorem nthState_closedPair (it : OpenEndedPairwiseDateIterator) (b : DateTime) (k : Nat) :
    nthState ClosedPairwiseDateIterator.next ⟨it, b⟩ k =
      ⟨nthState OpenEndedPairwiseDateIterator.next it k, b⟩ := by
  induction k with
  | zero => rfl
  | succ k ih => rw [nthState, ih]; rfl

theorem nthOut_closedPair (it : OpenEndedPairwiseDateIterator) (b : DateTime) (k : Nat) :
    nthOut ClosedPairwiseDateIterator.next ⟨it, b⟩ k =
      (nthOut OpenEndedPairwiseDateIterator.next it k).bind
        (fun p => if p.1.lt b then some p else none) := by
  rw [nthOut, nthState_closedPair]
  rfl

theorem nthOut_pair (it : OpenEndedDateIterator) (k : Nat) :
    nthOut OpenEndedPairwiseDateIterator.next ⟨it⟩ k =
      (stepValue it.start it.duration (it.iterations + k)).bind
        (fun a => (stepValue it.start it.duration (it.iterations + k + 1)).map
          (fun b => (a, b))) := by
  rw [nthOut, nthState_pair, nthState_open]
  simp [OpenEndedPairwiseDateIterator.next, OpenEndedDateIterator.next,
    OpenEndedDateIterator.current, stepValue]

/-! ## Time-of-day preservation helpers -/

theorem with_year_time {dt r : DateTime} {y : Int} (h : dt.with_year y = some r) :
    r.hour = dt.hour ∧ r.minute = dt.minute ∧ r.second = dt.second ∧ r.nano = dt.nano := by
  unfold DateTime.with_year at h
  split at h
  · injection h with h2
    subst h2
    exact ⟨rfl, rfl, rfl, rfl⟩
  · simp at h

theorem with_month_time {dt r : DateTime} {m : Nat} (h : dt.with_month m = some r) :
    r.hour = dt.hour ∧ r.minute = dt.minute ∧ r.second = dt.second ∧ r.nano = dt.nano := by
  unfold DateTime.with_month at h
  split at h
  · injection h with h2
    subst h2
    exact ⟨rfl, rfl, rfl, rfl⟩
  · simp at h

theorem with_day_time {dt r : DateTime} {d : Nat} (h : dt.with_day d = some r) :
    r.hour = dt.hour ∧ r.minute = dt.minute ∧ r.second = dt.second ∧ r.nano = dt.nano := by
  unfold DateTime.with_day at h
  split at h
  · injection h with h2
    subst h2
    exact ⟨rfl, rfl, rfl, rfl⟩
  · simp at h

theorem applyYmd_time {dt r : DateTime} {y : Int} {m d : Nat}
    (h : applyYmd dt y m d = some r) :
    r.hour = dt.hour ∧ r.minute = dt.minute ∧ r.second = dt.second ∧ r.nano = dt.nano := by
  unfold applyYmd at h
  obtain ⟨d3, h3, hr⟩ := Option.bind_eq_some.mp h
  obtain ⟨d2, h2, h3b⟩ := Option.bind_eq_some.mp h3
  obtain ⟨d1, h1, h2b⟩ := Option.bind_eq_some.mp h2
  have t1 := with_year_time h1
  have t2 := with_day_time h2b
  have t3 := with_month_time h3b
  have t4 := with_day_time hr
  exact ⟨t4.1.trans (t3.1.trans (t2.1.trans t1.1)),
    t4.2.1.trans (t3.2.1.trans (t2.2.1.trans t1.2.1)),
    t4.2.2.1.trans (t3.2.2.1.trans (t2.2.2.1.trans t1.2.2.1)),
    t4.2.2.2.trans (t3.2.2.2.trans (t2.2.2.2.trans t1.2.2.2))⟩

/-! ## Concrete inputs used by the claim theorems -/

def c1dt : DateTime := ⟨2000, 1, 15, 0, 0, 0, 0⟩

def c5dt : DateTime := ⟨2000, 2, 29, 1, 2, 3, 4⟩

def c6dt : DateTime := ⟨2000, 2, 29, 0, 0, 0, 0⟩

def c7jan : DateTime := ⟨1997, 1, 31, 16, 39, 57, 123⟩

def c7dec96 : DateTime := ⟨1996, 12, 31, 16, 39, 57, 123⟩

def c7dec99 : DateTime := ⟨1999, 12, 31, 16, 39, 57, 123⟩

def c9origin : DateTime := ⟨2000, 1, 10, 0, 0, 0, 0⟩

def c9iter : ClosedDateIterator :=
  date_iterator_from_to c9origin (.day ⟨-1⟩) c9origin

/-! ## Claim theorems -/

/-- C1: the month split of MonthDuration::add_to does not use floor
semantics.  At the date 2000-01-15 with N = -1 the total zero-based month
offset is -1: the Rust truncating division yields a year carry of 0
(floor division would give -1), the truncating remainder -1 is cast to
u32 as 4294967295 instead of being normalized into 0..11, and add_to
consequently returns none instead of 1999-12-15. -/
theorem claim1_month_split_not_floor :
    MonthDuration.add_to ⟨-1, .Previous⟩ c1dt = none ∧
    Int.tdiv (-1) 12 = 0 ∧
    u32OfI64 (Int.tmod (-1) 12) = 4294967295 ∧
    Int.fdiv (-1) 12 = -1 := by
  exact ⟨by decide, by decide, by decide, by decide⟩

/-- C2: the k-th call to next of the open-ended iterator yields exactly
times(k) applied to the origin, and after k calls the step counter equals
k, so the counter moves exactly once per call even when a step produces
nothing. -/
theorem claim2_open_iterator_rederives_each_step (origin : DateTime) (op : DateOp) (k : Nat) :
    nthOut OpenEndedDateIterator.next (date_iterator_from origin op) k =
      (op.times k).bind (fun d => d.add_to origin) ∧
    (nthState OpenEndedDateIterator.next (date_iterator_from origin op) k).iterations = k := by
  constructor
  · rw [nthOut_open]
    simp [date_iterator_from, stepValue]
  · rw [nthState_open]
    simp [date_iterator_from]

/-- C3: the k-th pair yielded by the open-ended pairwise iterator is
(v k, v (k+1)) with both elements re-derived from the origin by scaling
the duration, and nothing is yielded at a step where either of the two
computations fails. -/
theorem claim3_pairwise_rederives_both_elements (origin : DateTime) (op : DateOp) (k : Nat) :
    nthOut OpenEndedPairwiseDateIterator.next ((date_iterator_from origin op).pairwise) k =
      (stepValue origin op k).bind
        (fun a => (stepValue origin op ((k : Int) + 1)).map (fun b => (a, b))) := by
  have h := nthOut_pair (date_iterator_from origin op) k
  rw [OpenEndedDateIterator.pairwise]
  rw [h]
  simp [date_iterator_from]

/-- C4: the OldDuration implementor of times never detects overflow: the
scaled magnitude is the machine product with no failure, so a product
beyond the i64 range wraps (here 2^62 seconds times 4 wraps to 0) where
the claim requires a none result. -/
theorem claim4_old_duration_times_unchecked :
    DateOp.times (.old ⟨2 ^ 62⟩) 4 = some (.old ⟨0⟩) ∧ i64Max < 2 ^ 62 * 4 := by
  exact ⟨by decide, by decide⟩

/-- C5: DayDuration::add_to applied to the valid date 2000-02-29 with
n = 365 days fails although the 365-day shift lands on the representable
valid date 2001-02-28: the with_year step rejects year 2001 while the
origin still carries the Feb 29 month/day fields, a calendar-validity
failure the claim excludes. -/
theorem claim5_day_add_fails_on_feb29_origin :
    isValidDate c5dt.year c5dt.month c5dt.day = true ∧
    checkedAddDays (fromYmd c5dt.year c5dt.month c5dt.day) 365 = some ⟨2001, 2, 28⟩ ∧
    DayDuration.add_to ⟨365⟩ c5dt = none := by
  exact ⟨by decide, by decide, by decide⟩

/-- C6: with policy Previous, adding 12 months to 2000-02-29 targets
February 2001 whose last day 28 is below the origin day 29, so the claim
requires the clamped result 2001-02-28; the code instead returns none,
because the with_year step rejects year 2001 while the origin still
carries the Feb 29 fields. -/
theorem claim6_month_policy_fails_on_feb29_origin :
    last_day_of_month_0 2001 1 = 28 ∧
    MonthDuration.add_to ⟨12, .Previous⟩ c6dt = none := by
  exact ⟨by decide, by decide⟩

/-- C7 counterexample: adding 2 months to January 31 yields March 31 (March
has 31 days, no clamping), not the February 28 the claim states; the
clamping examples of the claim hold for a December 31 origin instead. -/
theorem claim7_jan31_counterexample :
    MonthDuration.add_to ⟨2, .Previous⟩ c7jan = some ⟨1997, 3, 31, 16, 39, 57, 123⟩ ∧
    MonthDuration.add_to ⟨2, .Previous⟩ c7jan ≠ some ⟨1997, 2, 28, 16, 39, 57, 123⟩ ∧
    MonthDuration.add_to ⟨4, .Previous⟩ c7jan ≠ some ⟨1997, 4, 30, 16, 39, 57, 123⟩ := by
  exact ⟨by decide, by decide, by decide⟩

/-- C7 amended: with a December 31 origin, adding 2 months with Previous
yields February 28 after a non-leap boundary and February 29 after a leap
boundary; adding 4 months yields April 30; adding 5 months yields May 31
with no clamping needed. -/
theorem claim7_dec31_clamp_examples :
    MonthDuration.add_to ⟨2, .Previous⟩ c7dec96 = some ⟨1997, 2, 28, 16, 39, 57, 123⟩ ∧
    MonthDuration.add_to ⟨2, .Previous⟩ c7dec99 = some ⟨2000, 2, 29, 16, 39, 57, 123⟩ ∧
    MonthDuration.add_to ⟨4, .Previous⟩ c7dec96 = some ⟨1997, 4, 30, 16, 39, 57, 123⟩ ∧
    MonthDuration.add_to ⟨5, .Previous⟩ c7dec96 = some ⟨1997, 5, 31, 16, 39, 57, 123⟩ := by
  exact ⟨by decide, by decide, by decide, by decide⟩

/-- C8: a bounded iterator, plain or pairwise, only yields values (first
pair elements respectively) strictly below its exclusive bound; the bound
itself is never included. -/
theorem claim8_closed_iterators_below_bound (origin : DateTime) (op : DateOp)
    (bound : DateTime) (k : Nat) (v a b : DateTime) :
    (nthOut ClosedDateIterator.next (date_iterator_from_to origin op bound) k = some v →
      v.lt bound = true) ∧
    (nthOut ClosedPairwiseDateIterator.next
        ((date_iterator_from_to origin op bound).pairwise) k = some (a, b) →
      a.lt bound = true) := by
  constructor
  · intro h
    rw [date_iterator_from_to, date_iterator_to, nthOut_closed] at h
    obtain ⟨w, hw, hf⟩ := Option.bind_eq_some.mp h
    split at hf
    · injection hf with hf2
      subst hf2
      assumption
    · simp at hf
  · intro h
    rw [date_iterator_from_to, date_iterator_to, ClosedDateIterator.pairwise] at h
    rw [OpenEndedDateIterator.pairwise, nthOut_closedPair] at h
    obtain ⟨w, hw, hf⟩ := Option.bind_eq_some.mp h
    split at hf
    · injection hf with hf2
      subst hf2
      assumption
    · simp at hf

/-- C8 witness: at the origin 2000-01-01 with a one-day duration and the
bound 2000-02-01 the bounded iterator and the bounded pairwise iterator
both yield at step 0, and the theorem delivers the strict-bound facts. -/
theorem claim8_witness :
    DateTime.lt ⟨2000, 1, 1, 0, 0, 0, 0⟩ ⟨2000, 2, 1, 0, 0, 0, 0⟩ = true ∧
    DateTime.lt ⟨2000, 1, 1, 0, 0, 0, 0⟩ ⟨2000, 2, 1, 0, 0, 0, 0⟩ = true :=
  ⟨(claim8_closed_iterators_below_bound ⟨2000, 1, 1, 0, 0, 0, 0⟩ (.day ⟨1⟩)
      ⟨2000, 2, 1, 0, 0, 0, 0⟩ 0 ⟨2000, 1, 1, 0, 0, 0, 0⟩ ⟨2000, 1, 1, 0, 0, 0, 0⟩
      ⟨2000, 1, 2, 0, 0, 0, 0⟩).1 (by decide),
   (claim8_closed_iterators_below_bound ⟨2000, 1, 1, 0, 0, 0, 0⟩ (.day ⟨1⟩)
      ⟨2000, 2, 1, 0, 0, 0, 0⟩ 0 ⟨2000, 1, 1, 0, 0, 0, 0⟩ ⟨2000, 1, 1, 0, 0, 0, 0⟩
      ⟨2000, 1, 2, 0, 0, 0, 0⟩).2 (by decide)⟩

/-- C9 counterexample: a bounded iterator over a minus-one-day duration
starting at its own bound yields nothing at step 0 (the value equals the
bound) and then yields 2000-01-09 at step 1: a call returning nothing does
not permanently end the sequence. -/
theorem claim9_counterexample_resumes :
    nthOut ClosedDateIterator.next c9iter 0 = none ∧
    nthOut ClosedDateIterator.next c9iter 1 = some ⟨2000, 1, 9, 0, 0, 0, 0⟩ := by
  exact ⟨by decide, by decide⟩

/-- C9 amended: the bounded iterator filters every step independently: its
k-th call yields the inner k-th value exactly when that value exists and
is strictly below the bound; a step that yields nothing does not
permanently end the sequence, a later in-bound inner value is yielded
again. -/
theorem claim9_per_step_filter (origin : DateTime) (op : DateOp)
    (bound : DateTime) (k : Nat) :
    nthOut ClosedDateIterator.next (date_iterator_from_to origin op bound) k =
      (stepValue origin op k).bind (fun v => if v.lt bound then some v else none) := by
  rw [date_iterator_from_to, date_iterator_to, nthOut_closed, nthOut_open]
  simp [date_iterator_from]

/-- C10: whenever the day-count, month-count or year-count duration
returns a value, that value carries exactly the time of day of the input:
only the year, month and day fields are modified. -/
theorem claim10_time_of_day_preserved (dt r : DateTime) (n : Int) (pol : InvalidDateHandling)
    (h : DayDuration.add_to ⟨n⟩ dt = some r ∨ MonthDuration.add_to ⟨n, pol⟩ dt = some r ∨
         YearDuration.add_to ⟨n⟩ dt = some r) :
    r.hour = dt.hour ∧ r.minute = dt.minute ∧ r.second = dt.second ∧ r.nano = dt.nano := by
  rcases h with h | h | h
  · unfold DayDuration.add_to at h
    split at h
    · simp at h
    · exact applyYmd_time h
  · unfold MonthDuration.add_to at h
    dsimp only at h
    repeat' split at h
    all_goals first
      | exact applyYmd_time h
      | simp at h
  · unfold YearDuration.add_to at h
    split at h
    · simp at h
    · exact with_year_time h

def c10dt : DateTime := ⟨2000, 1, 1, 3, 4, 5, 6⟩

def c10res : DateTime := ⟨2000, 1, 2, 3, 4, 5, 6⟩

/-- C10 witness: one day added to 2000-01-01T03:04:05.6 yields
2000-01-02 with the identical time of day, by the theorem applied at that
concrete input. -/
theorem claim10_witness :
    c10res.hour = c10dt.hour ∧ c10res.minute = c10dt.minute ∧
    c10res.second = c10dt.second ∧ c10res.nano = c10dt.nano :=
  claim10_time_of_day_preserved c10dt c10res 1 .Reject (Or.inl (by decide))
